import Mathlib

/-!
Verification of The Voyager (Flask travel-itinerary application).

Shallow embedding of the source files:
  * `openai_service.py` — prompt construction, JSON parsing/validation,
    retry policy for `generate_itinerary` and `regenerate_day`;
  * `models.py` — the persistence layer (users, trips, itinerary days),
    modelled as pure state transitions on a `DB` record;
  * `app.py` — the route handlers `register`, `new_trip`, `trip_view`
    and `regenerate_day`, modelled as functions from a database state
    (plus injected backend responses and fault flags for persistence
    exceptions) to a response value and the resulting database state.

JSON values are modelled by the inductive `Json` (numbers as integers;
floating-point responses are out of scope).  The generative backend is
modelled by a `GenResult` supplied per call: either a successfully
parsed JSON value, a parse failure (`json.JSONDecodeError`), or an API
error (any other exception raised by the client library).
-/

namespace Voyager

/-- JSON values as produced by `json.loads`.  Numbers are integers. -/
inductive Json where
  | null
  | bool (b : Bool)
  | num (n : Int)
  | str (s : String)
  | arr (elems : List Json)
  | obj (fields : List (String × Json))

/-- First-match association-list lookup: Python dict indexing / `.get`
(dicts never hold duplicate keys, so first-match is exact). -/
def lookupKey (k : String) : List (String × Json) → Option Json
  | [] => none
  | (k', v) :: rest => if k' = k then some v else lookupKey k rest

/-- Python dict assignment `d[k] = v`: replaces the value at the first
occurrence of `k`, keeping insertion order; appends when absent. -/
def setKey (kvs : List (String × Json)) (k : String) (v : Json) : List (String × Json) :=
  match kvs with
  | [] => [(k, v)]
  | (k', v') :: rest => if k' = k then (k, v) :: rest else (k', v') :: setKey rest k v

/-- Key lookup on a JSON value: `some` only for objects. -/
def Json.getKey : Json → String → Option Json
  | .obj kvs, k => lookupKey k kvs
  | _, _ => none

/-- Contiguous-sublist test on character lists. -/
def listInfix (needle : List Char) : List Char → Bool
  | [] => needle.isEmpty
  | hay@(_ :: rest) => needle.isPrefixOf hay || listInfix needle rest

/-- Python substring test `needle in hay` for strings.  The empty needle
is always contained. -/
def pyInStr (needle hay : String) : Bool :=
  listInfix needle.data hay.data

/-- Python `k in x` for a string key `k`, as used by the element checks in
`openai_service.generate_itinerary` and by `app.new_trip`.  For objects it
is key membership; for strings a substring test; for arrays membership by
`==` (a `str` only ever equals a `str`).  On numbers, booleans and null,
Python raises `TypeError`; in every context where this embedding is used
that exception is caught by a surrounding handler whose outcome coincides
with the check failing, so those cases are folded into `false`. -/
def pyContains (k : String) : Json → Bool
  | .obj kvs => (lookupKey k kvs).isSome
  | .str s => pyInStr k s
  | .arr xs => xs.any fun j => match j with | .str s => s == k | _ => false
  | _ => false

/-- Python truthiness of a JSON value (`if not itinerary_data`). -/
def pyFalsy : Json → Bool
  | .null => true
  | .bool b => !b
  | .num n => n == 0
  | .str s => s == ""
  | .arr xs => xs.isEmpty
  | .obj kvs => kvs.isEmpty

/-- Python `==` between a JSON value and an `int` (`day_data["day"] != day_num`).
`True == 1` and `False == 0` hold in Python; values of other types never
equal an `int`. -/
def pyEqInt (j : Json) (n : Int) : Bool :=
  match j with
  | .num m => m == n
  | .bool b => (if b then (1 : Int) else 0) == n
  | _ => false

/-! ## openai_service.py — prompts -/

/-- System prompt for full-itinerary generation (`ITINERARY_SYSTEM_PROMPT`). -/
def ITINERARY_SYSTEM_PROMPT : String :=
  "You are TravelGPT, an expert AI travel planner. \nYou must respond with valid JSON only, with no markdown formatting, no code blocks, and no extra text.\nYour response must be a single JSON object with this exact structure:\n\x7b\"days\": [\x7b\"day\": 1, \"summary\": \"...\"\x7d, \x7b\"day\": 2, \"summary\": \"...\"\x7d, ...]\x7d\n\nEach summary should be a concise paragraph describing the day\x27s activities, attractions, and recommendations.\nDo not include any text before or after the JSON object."

/-- System prompt for single-day regeneration (`REGENERATE_DAY_SYSTEM_PROMPT`). -/
def REGENERATE_DAY_SYSTEM_PROMPT : String :=
  "You are TravelGPT, an expert AI travel planner.\nYou must respond with valid JSON only, with no markdown formatting, no code blocks, and no extra text.\nYour response must be a single JSON object with this exact structure:\n\x7b\"day\": <number>, \"summary\": \"...\"\x7d\n\nThe summary should be a concise paragraph describing the day\x27s activities, attractions, and recommendations.\nDo not include any text before or after the JSON object."

/-- Whitespace characters removed by Python `str.strip()` (the ASCII ones;
exotic Unicode whitespace is out of scope). -/
def isPyWS (c : Char) : Bool :=
  c == ' ' || c == '\t' || c == '\n' || c == '\r' || c == '\x0b' || c == '\x0c'

/-- Python `str.strip()`: drop leading and trailing whitespace. -/
def pyStrip (s : String) : String :=
  ⟨((s.data.dropWhile isPyWS).reverse.dropWhile isPyWS).reverse⟩

/-- Condition `if prefs and prefs.strip():` guarding the preferences clause
of the initial full-itinerary prompt (truthy string, truthy after strip). -/
def genUsesPrefs (prefs : String) : Bool :=
  prefs != "" && pyStrip prefs != ""

/-- User message of the first full-itinerary attempt (`generate_itinerary`). -/
def genUserMessage (destination : String) (days : Int) (prefs : String) : String :=
  if genUsesPrefs prefs then
    "Plan a " ++ toString days ++ "-day trip to " ++ destination ++
      ". User preferences: " ++ prefs ++ ". Provide the itinerary in the specified JSON format."
  else
    "Plan a " ++ toString days ++ "-day trip to " ++ destination ++
      ". Provide the itinerary in the specified JSON format."

/-- Condition of the conditional expression `prefs if prefs else 'none'` in
the retry prompt: Python truthiness of the raw string, with no strip. -/
def retryUsesPrefs (prefs : String) : Bool :=
  prefs != ""

/-- The `\x7bprefs if prefs else 'none'\x7d` interpolation of the retry prompt. -/
def retryPrefsText (prefs : String) : String :=
  if retryUsesPrefs prefs then prefs else "none"

/-- User message of the retry attempt after a parse failure; the
"intensified instruction" of the spec, carrying the CRITICAL clause. -/
def retryMessage (destination : String) (days : Int) (prefs : String) : String :=
  "Plan a " ++ toString days ++ "-day trip to " ++ destination ++
    ". CRITICAL: Respond with ONLY valid JSON, no markdown, no code blocks. Format: \x7b\"days\": [\x7b\"day\": 1, \"summary\": \"...\"\x7d, ...]\x7d. Preferences: " ++
    retryPrefsText prefs ++ "."

/-- Condition `if prefs and prefs.strip():` in `regenerate_day`. -/
def regenUsesPrefs (prefs : String) : Bool :=
  prefs != "" && pyStrip prefs != ""

/-- User message of the single-day regeneration prompt (`regenerate_day`). -/
def regenUserMessage (destination : String) (day_num total_days : Int) (prefs : String) : String :=
  if regenUsesPrefs prefs then
    "Regenerate the itinerary for Day " ++ toString day_num ++ " of a " ++ toString total_days ++
      "-day trip to " ++ destination ++ ". User preferences: " ++ prefs ++
      ". Provide a fresh, alternative plan for this day in the specified JSON format."
  else
    "Regenerate the itinerary for Day " ++ toString day_num ++ " of a " ++ toString total_days ++
      "-day trip to " ++ destination ++
      ". Provide a fresh, alternative plan for this day in the specified JSON format."

/-! ## openai_service.py — backend model and the two operations -/

/-- Outcome of one `openai.ChatCompletion.create` call followed by
`json.loads` on the stripped response text:
`ok` — the text parsed to a JSON value;
`parseError` — `json.JSONDecodeError`;
`apiError` — `openai.error.OpenAIError` or any other exception from the call. -/
inductive GenResult where
  | ok (data : Json)
  | parseError
  | apiError

/-- One outbound call: the system prompt, the constructed user message,
and the `max_tokens` parameter. -/
structure GenCall where
  system : String
  user : String
  maxTokens : Nat

/-- Per-element check of the main validation loop of `generate_itinerary`:
`if "day" not in day_data or "summary" not in day_data: return None`. -/
def elemCheck (e : Json) : Bool :=
  pyContains "day" e && pyContains "summary" e

/-- Structure validation of the first-attempt path of `generate_itinerary`:
must be a dict, must have key `days`, its value must be a list, and every
element must pass `elemCheck`.  The requested `days` count is compared only
in a printed warning ("Still return it - we can handle partial results"), so
it has no effect on the result. -/
def validateItinerary (days : Int) (data : Json) : Option Json :=
  match data with
  | .obj kvs =>
    match lookupKey "days" kvs with
    | some (.arr entries) =>
        if entries.all elemCheck then some data else none
    | some _ => none
    | none => none
  | _ => none

/-- `openai_service.generate_itinerary`, with the backend responses of the
first attempt and of the (at most one) retry supplied as arguments.
Returns the Python return value (`none` models returning `None`,
`GenerationFailure` in the spec's vocabulary) together with the list of
backend calls actually made.  The retry happens only on a
`json.JSONDecodeError` of the first attempt; the retry result is subject
only to the quick check `"days" in data and isinstance(data["days"], list)`
(a non-dict retry value either fails that check or raises on subscripting,
which the `except` around the retry converts to `None` as well). -/
def generate_itinerary (destination : String) (days : Int) (prefs : String)
    (first retryResp : GenResult) : Option Json × List GenCall :=
  let call1 : GenCall := ⟨ITINERARY_SYSTEM_PROMPT, genUserMessage destination days prefs, 1500⟩
  match first with
  | .ok data => (validateItinerary days data, [call1])
  | .apiError => (none, [call1])
  | .parseError =>
    let call2 : GenCall := ⟨ITINERARY_SYSTEM_PROMPT, retryMessage destination days prefs, 1500⟩
    match retryResp with
    | .ok data =>
      (match data with
       | .obj kvs =>
         match lookupKey "days" kvs with
         | some (.arr entries) => some (.obj kvs)
         | _ => none
       | _ => none, [call1, call2])
    | _ => (none, [call1, call2])

/-- `openai_service.regenerate_day`, with the backend response supplied as
an argument.  No retry is attempted on any failure.  When the returned
`day` field differs from the requested `day_num` (Python `!=`, under which
`True == 1`), it is overwritten to `day_num` before returning. -/
def regenerate_day_service (destination : String) (day_num total_days : Int) (prefs : String)
    (backend : GenResult) : Option Json × List GenCall :=
  let call : GenCall :=
    ⟨REGENERATE_DAY_SYSTEM_PROMPT, regenUserMessage destination day_num total_days prefs, 300⟩
  match backend with
  | .apiError => (none, [call])
  | .parseError => (none, [call])
  | .ok data =>
    match data with
    | .obj kvs =>
      match lookupKey "day" kvs, lookupKey "summary" kvs with
      | some dv, some _ =>
          if pyEqInt dv day_num then (some (.obj kvs), [call])
          else (some (.obj (setKey kvs "day" (.num day_num))), [call])
      | _, _ => (none, [call])
    | _ => (none, [call])

/-! ## models.py — persistence layer as pure state transitions

Each function of `models.py` opens a connection, runs one parameterized
statement and commits (reads just fetch).  A raised exception leaves the
database unchanged: `create_user` rolls back explicitly, and elsewhere an
uncommitted statement is discarded when the connection closes.  Faults are
therefore injected at the call sites in the route handlers as flags meaning
"this call raised", with the state unchanged by the raising call. -/

/-- Row of the `users` table. -/
structure UserRow where
  id : Nat
  username : String
  password_hash : String

/-- Row of the `trips` table. -/
structure Trip where
  id : Nat
  user_id : Nat
  title : String
  num_days : Int
  preferences : String

/-- Row of the `itinerary_days` table.  `new_trip` inserts
`day_data['day']` and `day_data['summary']` verbatim, so both columns
hold whatever JSON values the backend produced. -/
structure DayRow where
  trip_id : Nat
  day_number : Json
  content : Json

/-- The persisted state: the three tables plus the auto-increment
counters that produce `cursor.lastrowid`. -/
structure DB where
  users : List UserRow
  trips : List Trip
  days : List DayRow
  nextUserId : Nat
  nextTripId : Nat

/-- `models.find_user`: `SELECT ... FROM users WHERE username = %s`. -/
def find_user (db : DB) (username : String) : Option UserRow :=
  db.users.find? fun u => u.username == username

/-- `models.create_user`: insert and return `lastrowid`. -/
def create_user (db : DB) (username password_hash : String) : Nat × DB :=
  (db.nextUserId,
   { db with users := db.users ++ [⟨db.nextUserId, username, password_hash⟩],
             nextUserId := db.nextUserId + 1 })

/-- `models.create_trip`: insert and return `lastrowid`. -/
def create_trip (db : DB) (user_id : Nat) (title : String) (num_days : Int)
    (prefs : String) : Nat × DB :=
  (db.nextTripId,
   { db with trips := db.trips ++ [⟨db.nextTripId, user_id, title, num_days, prefs⟩],
             nextTripId := db.nextTripId + 1 })

/-- `models.get_trip`: `SELECT * FROM trips WHERE id = %s`. -/
def get_trip (db : DB) (trip_id : Nat) : Option Trip :=
  db.trips.find? fun t => t.id == trip_id

/-- `models.create_day`: insert one row of `itinerary_days`. -/
def create_day (db : DB) (trip_id : Nat) (day_number content : Json) : DB :=
  { db with days := db.days ++ [⟨trip_id, day_number, content⟩] }

/-- SQL comparison key used for `ORDER BY day_number` on the JSON-typed
column (integer-valued in every reachable state). -/
def dayKey : Json → Int
  | .num n => n
  | .bool b => if b then 1 else 0
  | _ => 0

/-- `models.get_days`: days of one trip, ordered by `day_number`. -/
def get_days (db : DB) (trip_id : Nat) : List DayRow :=
  List.insertionSort (fun a b => dayKey a.day_number ≤ dayKey b.day_number)
    (db.days.filter fun r => r.trip_id == trip_id)

/-- Row predicate of `models.update_day`:
`WHERE trip_id = %s AND day_number = %s` (integer comparison on the
`day_number` column). -/
def updMatch (trip_id : Nat) (day_number : Int) (r : DayRow) : Bool :=
  r.trip_id == trip_id && pyEqInt r.day_number day_number

/-- `models.update_day`: overwrite `content` of every matching row
(zero rows matched is not an error). -/
def update_day (db : DB) (trip_id : Nat) (day_number : Int) (new_content : Json) : DB :=
  { db with days := db.days.map fun r =>
      if updMatch trip_id day_number r then { r with content := new_content } else r }

/-! ## app.py — route handlers -/

/-- Outcome of `app.register` (POST path after form validation):
`duplicateFlash` — "Username already exists" flash, form re-rendered;
`errorFlash` — `create_user` raised, error flash, form re-rendered;
`successRedirect` — success flash and redirect to the login page. -/
inductive RegisterResult where
  | duplicateFlash
  | errorFlash
  | successRedirect (user_id : Nat)

/-- `app.register` on a validated submission.  `hashFn` stands for
`generate_password_hash`; `createFault` injects an exception in
`models.create_user` (rolled back, state unchanged). -/
def register_route (db : DB) (username password : String) (hashFn : String → String)
    (createFault : Bool) : RegisterResult × DB :=
  match find_user db username with
  | some _ => (.duplicateFlash, db)
  | none =>
    if createFault then (.errorFlash, db)
    else
      let (uid, db2) := create_user db username (hashFn password)
      (.successRedirect uid, db2)

/-- Outcome of `app.new_trip` (POST path after form validation):
`failureFlash` — an error flash and the form re-rendered;
`successRedirect` — success flash and redirect to `trip_view`. -/
inductive TripResult where
  | failureFlash
  | successRedirect (trip_id : Nat)

/-- The loop `for day_data in itinerary_data['days']` of `app.new_trip`.
Each good entry is written by `models.create_day` (its own commit); a
missing `day`/`summary` key (`KeyError`), a non-dict entry (`TypeError`)
or an injected `create_day` fault raises, which the surrounding `except`
turns into the failure path — with every row written so far still
committed.  Returns whether the loop completed, and the resulting state. -/
def insertDays (trip_id : Nat) (dayFaults : Nat → Bool) :
    DB → List Json → Nat → Bool × DB
  | db, [], _ => (true, db)
  | db, e :: rest, i =>
    match e with
    | .obj kvs =>
      match lookupKey "day" kvs, lookupKey "summary" kvs with
      | some d, some s =>
        if dayFaults i then (false, db)
        else insertDays trip_id dayFaults (create_day db trip_id d s) rest (i + 1)
      | _, _ => (false, db)
    | _ => (false, db)

/-- `app.new_trip` on a validated submission.  `first`/`retryResp` are the
backend responses consumed by `generate_itinerary`; `tripFault` injects an
exception in `models.create_trip` (nothing committed), `dayFaults i` one in
the `i`-th `models.create_day` call.  The branches after `create_trip` for
a non-dict result or a non-list `days` value model the `TypeError` a
subscript/iteration would raise there (caught by the handler's `except`);
they are unreachable for values `generate_itinerary` actually returns. -/
def new_trip (db : DB) (user_id : Nat) (title : String) (num_days : Int)
    (preferences : String) (first retryResp : GenResult) (tripFault : Bool)
    (dayFaults : Nat → Bool) : TripResult × DB :=
  match (generate_itinerary title num_days preferences first retryResp).1 with
  | none => (.failureFlash, db)
  | some data =>
    if pyFalsy data || !pyContains "days" data then (.failureFlash, db)
    else if tripFault then (.failureFlash, db)
    else
      let tid := (create_trip db user_id title num_days preferences).1
      let db1 := (create_trip db user_id title num_days preferences).2
      match data with
      | .obj kvs =>
        match lookupKey "days" kvs with
        | some (.arr entries) =>
          let done := (insertDays tid dayFaults db1 entries 0).1
          let db2 := (insertDays tid dayFaults db1 entries 0).2
          if done then (.successRedirect tid, db2) else (.failureFlash, db2)
        | _ => (.failureFlash, db1)
      | _ => (.failureFlash, db1)

/-- Outcome of `app.trip_view`:
`notFoundRedirect` — "Trip not found" flash, redirect to the dashboard;
`forbiddenRedirect` — permission flash, redirect to the dashboard
(neither carries any trip or day content);
`page` — the rendered itinerary page with the trip and its days. -/
inductive ViewResult where
  | notFoundRedirect
  | forbiddenRedirect
  | page (trip : Trip) (days : List DayRow)

/-- `app.trip_view` (reads only; the database is unchanged). -/
def trip_view (db : DB) (user_id : Nat) (trip_id : Nat) : ViewResult :=
  match get_trip db trip_id with
  | none => .notFoundRedirect
  | some trip =>
    if trip.user_id ≠ user_id then .forbiddenRedirect
    else .page trip (get_days db trip_id)

/-- JSON responses of `app.regenerate_day`, with their HTTP status:
404 trip not found; 403 unauthorized; 400 invalid day number;
500 generation failed / day-number mismatch / exception in `update_day`;
200 success carrying `\x7bday, content\x7d`. -/
inductive RegenResponse where
  | notFound404
  | forbidden403
  | invalidDay400
  | genFailure500
  | mismatch500
  | serverError500
  | okJson (day : Int) (content : Json)

/-- The check `if day_data.get('day') != day_num` of `app.regenerate_day`:
error unless the `day` field is present and equals `day_num`. -/
def dayFieldMatches (day_data : Json) (day_num : Int) : Bool :=
  match day_data.getKey "day" with
  | some v => pyEqInt v day_num
  | none => false

/-- `app.regenerate_day`: ownership and range checks, one backend call via
`regenerate_day_service`, response validation, then `models.update_day`.
`updateFault` injects an exception in `update_day` (nothing committed).
Returns the JSON response, the resulting state and the list of backend
calls made during the request (empty when the backend was never called). -/
def regenerate_day_route (db : DB) (user_id trip_id : Nat) (day_num : Int)
    (backend : GenResult) (updateFault : Bool) : RegenResponse × DB × List GenCall :=
  match get_trip db trip_id with
  | none => (.notFound404, db, [])
  | some trip =>
    if trip.user_id ≠ user_id then (.forbidden403, db, [])
    else if day_num < 1 ∨ trip.num_days < day_num then (.invalidDay400, db, [])
    else
      let res :=
        (regenerate_day_service trip.title day_num trip.num_days trip.preferences backend).1
      let calls :=
        (regenerate_day_service trip.title day_num trip.num_days trip.preferences backend).2
      match res with
      | none => (.genFailure500, db, calls)
      | some day_data =>
        if pyFalsy day_data || !pyContains "summary" day_data then (.genFailure500, db, calls)
        else if !dayFieldMatches day_data day_num then (.mismatch500, db, calls)
        else
          match day_data.getKey "summary" with
          | none => (.genFailure500, db, calls)
          | some new_content =>
            if updateFault then (.serverError500, db, calls)
            else (.okJson day_num new_content, update_day db trip_id day_num new_content, calls)

/-! ## Helper lemmas -/

theorem lookupKey_setKey_self (k : String) (v : Json) :
    ∀ kvs, lookupKey k (setKey kvs k v) = some v := by
  intro kvs
  induction kvs with
  | nil => simp [setKey, lookupKey]
  | cons p rest ih =>
    by_cases h : p.1 = k
    · simp [setKey, lookupKey, h]
    · simp [setKey, lookupKey, h, ih]

theorem lookupKey_setKey_ne (k k' : String) (v : Json) (hk : k' ≠ k) :
    ∀ kvs, lookupKey k' (setKey kvs k v) = lookupKey k' kvs := by
  intro kvs
  induction kvs with
  | nil => simp [setKey, lookupKey, Ne.symm hk]
  | cons p rest ih =>
    by_cases h : p.1 = k
    · simp [setKey, lookupKey, h, Ne.symm hk, hk]
    · by_cases h' : p.1 = k'
      · simp [setKey, lookupKey, h, h', hk]
      · simp [setKey, lookupKey, h, h', ih]

theorem lookupKey_ne_nil {k : String} {v : Json} {kvs : List (String × Json)}
    (h : lookupKey k kvs = some v) : kvs ≠ [] := by
  intro he
  subst he
  simp [lookupKey] at h

theorem setKey_ne_nil (kvs : List (String × Json)) (k : String) (v : Json) :
    setKey kvs k v ≠ [] := by
  match kvs with
  | [] => simp [setKey]
  | p :: rest =>
    by_cases h : p.1 = k
    · simp [setKey, h]
    · simp [setKey, h]

theorem pyFalsy_obj_ne_nil {kvs : List (String × Json)} (h : kvs ≠ []) :
    pyFalsy (.obj kvs) = false := by
  cases kvs with
  | nil => exact absurd rfl h
  | cons p rest => rfl

theorem update_day_no_match (db : DB) (trip_id : Nat) (day_number : Int) (c : Json)
    (h : ∀ r ∈ db.days, updMatch trip_id day_number r = false) :
    update_day db trip_id day_number c = db := by
  unfold update_day
  have hmap : ∀ l : List DayRow, (∀ r ∈ l, updMatch trip_id day_number r = false) →
      l.map (fun r => if updMatch trip_id day_number r then { r with content := c } else r) = l := by
    intro l
    induction l with
    | nil => intro _; rfl
    | cons a t ih =>
      intro hl
      have ha := hl a (by simp)
      have ht := ih fun r hr => hl r (by simp [hr])
      simp [ha, ht]
  rw [hmap db.days h]

/-- Shared success-path characterization of `app.regenerate_day`: an owned
trip, an in-range day number, a parsed backend object with `day` and
`summary` fields, and no `update_day` fault yield the success JSON and the
`update_day` write. -/
theorem regen_route_ok
    (db : DB) (user_id trip_id : Nat) (day_num : Int) (trip : Trip)
    (kvs : List (String × Json)) (dv sv : Json)
    (htrip : get_trip db trip_id = some trip)
    (howner : trip.user_id = user_id)
    (hlo : 1 ≤ day_num) (hhi : day_num ≤ trip.num_days)
    (hday : lookupKey "day" kvs = some dv)
    (hsum : lookupKey "summary" kvs = some sv) :
    regenerate_day_route db user_id trip_id day_num (.ok (.obj kvs)) false =
      (RegenResponse.okJson day_num sv, update_day db trip_id day_num sv,
       [⟨REGENERATE_DAY_SYSTEM_PROMPT,
         regenUserMessage trip.title day_num trip.num_days trip.preferences, 300⟩]) := by
  have hrange : ¬ (day_num < 1 ∨ trip.num_days < day_num) := by
    push_neg
    exact ⟨hlo, hhi⟩
  by_cases heq : pyEqInt dv day_num = true
  · have hfal : pyFalsy (.obj kvs) = false := pyFalsy_obj_ne_nil (lookupKey_ne_nil hday)
    have hcon : pyContains "summary" (.obj kvs) = true := by
      simp [pyContains, hsum]
    have hmat : dayFieldMatches (.obj kvs) day_num = true := by
      simp [dayFieldMatches, Json.getKey, hday, heq]
    simp [regenerate_day_route, regenerate_day_service, htrip, howner, hrange,
      hday, hsum, heq, hfal, hcon, hmat, Json.getKey]
  · have heq' : pyEqInt dv day_num = false := by
      simpa using heq
    have hday' : lookupKey "day" (setKey kvs "day" (.num day_num)) = some (.num day_num) :=
      lookupKey_setKey_self "day" (.num day_num) kvs
    have hsum' : lookupKey "summary" (setKey kvs "day" (.num day_num)) = some sv := by
      rw [lookupKey_setKey_ne "day" "summary" (.num day_num) (by decide) kvs]
      exact hsum
    have hfal : pyFalsy (.obj (setKey kvs "day" (.num day_num))) = false :=
      pyFalsy_obj_ne_nil (setKey_ne_nil kvs "day" (.num day_num))
    have hcon : pyContains "summary" (.obj (setKey kvs "day" (.num day_num))) = true := by
      simp [pyContains, hsum']
    have hmat : dayFieldMatches (.obj (setKey kvs "day" (.num day_num))) day_num = true := by
      simp [dayFieldMatches, Json.getKey, hday', pyEqInt]
    simp [regenerate_day_route, regenerate_day_service, htrip, howner, hrange,
      hday, hsum, heq', hfal, hcon, hmat, Json.getKey, hsum']

/-! ## Demo database states used by the witnesses -/

/-- Empty database. -/
def db0 : DB := ⟨[], [], [], 1, 1⟩

/-- One trip (id 1) owned by user 1, three days long, no day rows yet. -/
def dbOwned : DB := ⟨[], [⟨1, 1, "Paris", 3, ""⟩], [], 1, 2⟩

/-- One trip (id 1) owned by user 7, three days long, no day rows yet. -/
def dbThree : DB := ⟨[], [⟨1, 7, "Paris", 3, ""⟩], [], 1, 2⟩

/-! ## Claim theorems -/

/-- Claim C3: if full-itinerary generation returns `GenerationFailure`
(`None`) or a result without a `days` key, `new_trip` aborts before any
persistence write — the database is returned unchanged, so no Trip row and
no Day rows for the request exist — and the user sees the failure flash. -/
theorem generation_failure_aborts
    (db : DB) (user_id : Nat) (title preferences : String) (num_days : Int)
    (first retryResp : GenResult) (tripFault : Bool) (dayFaults : Nat → Bool)
    (h : (generate_itinerary title num_days preferences first retryResp).1 = none ∨
         ∃ j, (generate_itinerary title num_days preferences first retryResp).1 = some j ∧
           pyContains "days" j = false) :
    new_trip db user_id title num_days preferences first retryResp tripFault dayFaults =
      (TripResult.failureFlash, db) := by
  unfold new_trip
  rcases h with h | ⟨j, hj, hc⟩
  · rw [h]
  · rw [hj]
    simp [hc]

theorem generation_failure_aborts_witness :
    new_trip db0 1 "Rome" 2 "" .apiError .apiError false (fun _ => false) =
      (TripResult.failureFlash, db0) :=
  generation_failure_aborts db0 1 "Rome" "" 2 .apiError .apiError false (fun _ => false)
    (Or.inl rfl)

/-- Claim C7: for a trip owned by user A, any attempt by an authenticated
user B ≠ A to view it or regenerate one of its days fails with the
Forbidden outcome (permission redirect on the page path, 403 JSON on the
regeneration endpoint), whose constructors carry none of A's trip or day
content; a nonexistent trip yields the NotFound outcome.  On both failure
paths the regeneration endpoint leaves the database unchanged and makes no
backend call. -/
theorem ownership_checks
    (db : DB) (user_id trip_id : Nat) (day_num : Int)
    (backend : GenResult) (updateFault : Bool) :
    (get_trip db trip_id = none →
      trip_view db user_id trip_id = ViewResult.notFoundRedirect ∧
      regenerate_day_route db user_id trip_id day_num backend updateFault =
        (RegenResponse.notFound404, db, [])) ∧
    (∀ trip, get_trip db trip_id = some trip → trip.user_id ≠ user_id →
      trip_view db user_id trip_id = ViewResult.forbiddenRedirect ∧
      regenerate_day_route db user_id trip_id day_num backend updateFault =
        (RegenResponse.forbidden403, db, [])) := by
  constructor
  · intro h
    constructor
    · unfold trip_view
      rw [h]
    · unfold regenerate_day_route
      rw [h]
  · intro trip htrip hne
    constructor
    · unfold trip_view
      rw [htrip]
      simp [hne]
    · unfold regenerate_day_route
      rw [htrip]
      simp [hne]

theorem ownership_checks_witness :
    (trip_view dbOwned 2 1 = ViewResult.forbiddenRedirect ∧
      regenerate_day_route dbOwned 2 1 1 .apiError false =
        (RegenResponse.forbidden403, dbOwned, [])) ∧
    (trip_view dbOwned 2 5 = ViewResult.notFoundRedirect ∧
      regenerate_day_route dbOwned 2 5 1 .apiError false =
        (RegenResponse.notFound404, dbOwned, [])) :=
  ⟨(ownership_checks dbOwned 2 1 1 .apiError false).2 ⟨1, 1, "Paris", 3, ""⟩ rfl (by decide),
   (ownership_checks dbOwned 2 5 1 .apiError false).1 rfl⟩

/-- Three-day trip of user 7 with all three day rows persisted. -/
def dbC5 : DB :=
  ⟨[], [⟨1, 7, "Paris", 3, "vegetarian"⟩],
   [⟨1, .num 1, .str "a"⟩, ⟨1, .num 2, .str "b"⟩, ⟨1, .num 3, .str "c"⟩], 1, 2⟩

/-- Claim C5: when the backend's returned `day` field disagrees with the
requested `day_num` (under Python `==`), `regenerate_day` in the service
overwrites the field to `day_num` before returning, and the route then
persists the returned summary via `update_day` keyed on the requested
`day_num` and reports success with that content. -/
theorem regen_mismatch_overwrites
    (db : DB) (user_id trip_id : Nat) (day_num : Int) (trip : Trip)
    (kvs : List (String × Json)) (dv sv : Json)
    (htrip : get_trip db trip_id = some trip)
    (howner : trip.user_id = user_id)
    (hlo : 1 ≤ day_num) (hhi : day_num ≤ trip.num_days)
    (hday : lookupKey "day" kvs = some dv)
    (hsum : lookupKey "summary" kvs = some sv)
    (hdis : pyEqInt dv day_num = false) :
    (regenerate_day_service trip.title day_num trip.num_days trip.preferences
        (.ok (.obj kvs))).1 = some (.obj (setKey kvs "day" (.num day_num))) ∧
    Json.getKey (.obj (setKey kvs "day" (.num day_num))) "day" = some (.num day_num) ∧
    regenerate_day_route db user_id trip_id day_num (.ok (.obj kvs)) false =
      (RegenResponse.okJson day_num sv, update_day db trip_id day_num sv,
       [⟨REGENERATE_DAY_SYSTEM_PROMPT,
         regenUserMessage trip.title day_num trip.num_days trip.preferences, 300⟩]) := by
  refine ⟨?_, ?_, ?_⟩
  · simp [regenerate_day_service, hday, hsum, hdis]
  · simp [Json.getKey, lookupKey_setKey_self]
  · exact regen_route_ok db user_id trip_id day_num trip kvs dv sv htrip howner hlo hhi hday hsum

theorem regen_mismatch_overwrites_witness :
    regenerate_day_route dbC5 7 1 2 (.ok (.obj [("day", .num 5), ("summary", .str "X")])) false =
      (RegenResponse.okJson 2 (.str "X"),
       { dbC5 with days := [⟨1, .num 1, .str "a"⟩, ⟨1, .num 2, .str "X"⟩, ⟨1, .num 3, .str "c"⟩] },
       [⟨REGENERATE_DAY_SYSTEM_PROMPT, regenUserMessage "Paris" 2 3 "vegetarian", 300⟩]) :=
  (regen_mismatch_overwrites dbC5 7 1 2 ⟨1, 7, "Paris", 3, "vegetarian"⟩
    [("day", .num 5), ("summary", .str "X")] (.num 5) (.str "X")
    rfl rfl (by decide) (by decide) rfl rfl (by decide)).2.2

/-- Three-day trip of user 7 with only the day-1 row persisted (the
accepted day-count-mismatch gap). -/
def dbC10 : DB :=
  ⟨[], [⟨1, 7, "Paris", 3, ""⟩], [⟨1, .num 1, .str "a"⟩], 1, 2⟩

/-- Claim C10: when no Day row exists for an in-range `day_num` of an owned
trip, regeneration still returns the 200 success JSON with the freshly
generated content, while `update_day` matches zero rows, so the persisted
state is entirely unchanged — the reported content is never stored. -/
theorem regen_missing_row_silent
    (db : DB) (user_id trip_id : Nat) (day_num : Int) (trip : Trip)
    (kvs : List (String × Json)) (dv sv : Json)
    (htrip : get_trip db trip_id = some trip)
    (howner : trip.user_id = user_id)
    (hlo : 1 ≤ day_num) (hhi : day_num ≤ trip.num_days)
    (hday : lookupKey "day" kvs = some dv)
    (hsum : lookupKey "summary" kvs = some sv)
    (hnorow : ∀ r ∈ db.days, updMatch trip_id day_num r = false) :
    regenerate_day_route db user_id trip_id day_num (.ok (.obj kvs)) false =
      (RegenResponse.okJson day_num sv, db,
       [⟨REGENERATE_DAY_SYSTEM_PROMPT,
         regenUserMessage trip.title day_num trip.num_days trip.preferences, 300⟩]) := by
  rw [regen_route_ok db user_id trip_id day_num trip kvs dv sv htrip howner hlo hhi hday hsum,
    update_day_no_match db trip_id day_num sv hnorow]

theorem regen_missing_row_silent_witness :
    regenerate_day_route dbC10 7 1 2 (.ok (.obj [("day", .num 2), ("summary", .str "fresh")])) false =
      (RegenResponse.okJson 2 (.str "fresh"), dbC10,
       [⟨REGENERATE_DAY_SYSTEM_PROMPT, regenUserMessage "Paris" 2 3 "", 300⟩]) :=
  regen_missing_row_silent dbC10 7 1 2 ⟨1, 7, "Paris", 3, ""⟩
    [("day", .num 2), ("summary", .str "fresh")] (.num 2) (.str "fresh")
    rfl rfl (by decide) (by decide) rfl rfl
    (by
      intro r hr
      simp only [dbC10, List.mem_singleton] at hr
      subst hr
      rfl)

/-- Claim C8: a regeneration request with `day_num < 1` or
`day_num > trip.num_days` on an existing trip owned by the requester fails
with the 400 InvalidArgument JSON response, the backend is never called
(the list of calls made is empty) and the database is unchanged. -/
theorem invalid_day_rejected
    (db : DB) (user_id trip_id : Nat) (day_num : Int) (trip : Trip)
    (backend : GenResult) (updateFault : Bool)
    (htrip : get_trip db trip_id = some trip)
    (howner : trip.user_id = user_id)
    (hbad : day_num < 1 ∨ trip.num_days < day_num) :
    regenerate_day_route db user_id trip_id day_num backend updateFault =
      (RegenResponse.invalidDay400, db, []) := by
  unfold regenerate_day_route
  rw [htrip]
  simp [howner, hbad]

theorem invalid_day_rejected_witness :
    regenerate_day_route dbThree 7 1 0 .apiError false =
      (RegenResponse.invalidDay400, dbThree, []) :=
  invalid_day_rejected dbThree 7 1 0 ⟨1, 7, "Paris", 3, ""⟩ .apiError false rfl rfl
    (Or.inl (by decide))

/-- Claim C6: a full-itinerary request whose first backend response fails
to parse triggers exactly one retry carrying the intensified
`retryMessage` instruction, and returns `GenerationFailure` when the retry
also fails to parse (or errors), or parses to anything that is not a
mapping with a list under `days`; a first attempt that does not raise a
parse error is never retried (exactly one call).  Single-day regeneration
always makes exactly one backend call, and a parse or backend failure
immediately yields `GenerationFailure`. -/
theorem retry_policy_asymmetry
    (destination prefs : String) (days day_num total_days : Int)
    (retryResp backend : GenResult) :
    ((generate_itinerary destination days prefs .parseError retryResp).2 =
      [⟨ITINERARY_SYSTEM_PROMPT, genUserMessage destination days prefs, 1500⟩,
       ⟨ITINERARY_SYSTEM_PROMPT, retryMessage destination days prefs, 1500⟩]) ∧
    (retryResp = .parseError ∨ retryResp = .apiError →
      (generate_itinerary destination days prefs .parseError retryResp).1 = none) ∧
    (∀ data, retryResp = .ok data →
      (∀ kvs entries, data = Json.obj kvs → lookupKey "days" kvs = some (.arr entries) → False) →
      (generate_itinerary destination days prefs .parseError retryResp).1 = none) ∧
    (∀ first, first ≠ .parseError →
      (generate_itinerary destination days prefs first retryResp).2 =
        [⟨ITINERARY_SYSTEM_PROMPT, genUserMessage destination days prefs, 1500⟩]) ∧
    ((regenerate_day_service destination day_num total_days prefs backend).2 =
      [⟨REGENERATE_DAY_SYSTEM_PROMPT,
        regenUserMessage destination day_num total_days prefs, 300⟩]) ∧
    (backend = .parseError ∨ backend = .apiError →
      (regenerate_day_service destination day_num total_days prefs backend).1 = none) := by
  refine ⟨?_, ?_, ?_, ?_, ?_, ?_⟩
  · cases retryResp <;> rfl
  · rintro (h | h) <;> subst h <;> rfl
  · intro data h hnone
    subst h
    cases data with
    | obj kvs =>
      cases hl : lookupKey "days" kvs with
      | none => simp [generate_itinerary, hl]
      | some v =>
        cases v with
        | arr entries => exact (hnone kvs entries rfl hl).elim
        | null => simp [generate_itinerary, hl]
        | bool b => simp [generate_itinerary, hl]
        | num n => simp [generate_itinerary, hl]
        | str s => simp [generate_itinerary, hl]
        | obj kvs2 => simp [generate_itinerary, hl]
    | null => rfl
    | bool b => rfl
    | num n => rfl
    | str s => rfl
    | arr xs => rfl
  · intro first h
    cases first with
    | parseError => exact (h rfl).elim
    | ok data => rfl
    | apiError => rfl
  · cases backend with
    | parseError => rfl
    | apiError => rfl
    | ok data =>
      cases data with
      | obj kvs =>
        cases h1 : lookupKey "day" kvs with
        | none =>
          cases h2 : lookupKey "summary" kvs <;> simp [regenerate_day_service, h1]
        | some dv =>
          cases h2 : lookupKey "summary" kvs with
          | none => simp [regenerate_day_service, h1, h2]
          | some sv =>
            simp only [regenerate_day_service, h1, h2]
            split <;> rfl
      | null => rfl
      | bool b => rfl
      | num n => rfl
      | str s => rfl
      | arr xs => rfl
  · rintro (h | h) <;> subst h <;> rfl

theorem retry_policy_asymmetry_witness :
    (generate_itinerary "Kyoto" 2 "" .parseError .parseError).1 = none ∧
    (generate_itinerary "Kyoto" 2 "" .parseError .parseError).2 =
      [⟨ITINERARY_SYSTEM_PROMPT, genUserMessage "Kyoto" 2 "", 1500⟩,
       ⟨ITINERARY_SYSTEM_PROMPT, retryMessage "Kyoto" 2 "", 1500⟩] ∧
    (regenerate_day_service "Kyoto" 1 2 "" .parseError).1 = none :=
  ⟨(retry_policy_asymmetry "Kyoto" "" 2 1 2 .parseError .parseError).2.1 (Or.inl rfl),
   (retry_policy_asymmetry "Kyoto" "" 2 1 2 .parseError .parseError).1,
   (retry_policy_asymmetry "Kyoto" "" 2 1 2 .parseError .parseError).2.2.2.2.2 (Or.inl rfl)⟩

/-- Counterexample to claim C9: for the whitespace-only preferences string,
which is empty after trimming, the initial full-itinerary prompt correctly
omits the preferences clause, but the retry prompt — whose condition is
`prefs if prefs else 'none'`, plain truthiness without stripping — still
interpolates the user's preferences text instead of the literal `none`,
so its instruction differs from the empty-preferences instruction.  The
claim's "if and only if non-empty after trimming" therefore fails for the
retry prompt. -/
theorem retry_prefs_untrimmed :
    pyStrip " " = "" ∧
    genUsesPrefs " " = false ∧
    retryUsesPrefs " " = true ∧
    retryPrefsText " " = " " ∧
    retryMessage "Paris" 3 " " ≠ retryMessage "Paris" 3 "" := by
  refine ⟨by decide, by decide, by decide, by decide, ?_⟩
  intro h
  unfold retryMessage at h
  have e1 : retryPrefsText " " = " " := rfl
  have e2 : retryPrefsText "" = "none" := rfl
  rw [e1, e2] at h
  have hl := congrArg String.length h
  simp only [String.length_append] at hl
  have l1 : (" ").length = 1 := rfl
  have l2 : ("none").length = 4 := rfl
  rw [l1, l2] at hl
  omega

/-- Claim C9 as amended: the initial full-itinerary prompt and the
regeneration prompt include the preferences clause exactly when the
preferences string is non-empty after trimming, but the retry prompt
interpolates the user's preferences text exactly when the raw string is
non-empty (whitespace-only preferences are still interpolated there). -/
theorem prefs_inclusion_policy (prefs : String) :
    genUsesPrefs prefs = (pyStrip prefs != "") ∧
    regenUsesPrefs prefs = (pyStrip prefs != "") ∧
    retryUsesPrefs prefs = (prefs != "") := by
  have key : (prefs != "" && pyStrip prefs != "") = (pyStrip prefs != "") := by
    by_cases h : prefs = ""
    · subst h
      decide
    · have h1 : (prefs != "") = true := by simp [h]
      rw [h1, Bool.true_and]
  exact ⟨key, key, rfl⟩

theorem prefs_inclusion_policy_witness :
    genUsesPrefs "kosher food" = (pyStrip "kosher food" != "") ∧
    regenUsesPrefs "kosher food" = (pyStrip "kosher food" != "") ∧
    retryUsesPrefs "kosher food" = ("kosher food" != "") :=
  prefs_inclusion_policy "kosher food"

/-- Retry response whose single `days` element is the empty mapping,
missing both the `day` and the `summary` key. -/
def badRetryData : Json := .obj [("days", .arr [.obj []])]

/-- Counterexample to claim C2: after a parse failure of the first
attempt, `generate_itinerary` returns the retry result having checked only
that `days` holds a list — here the result's single `days` element is a
mapping with neither a `day` nor a `summary` key, yet the operation does
not return `GenerationFailure`. -/
theorem retry_skips_element_checks :
    (generate_itinerary "Paris" 3 "" .parseError (.ok badRetryData)).1 = some badRetryData ∧
    Json.getKey badRetryData "days" = some (.arr [.obj []]) ∧
    elemCheck (.obj []) = false :=
  ⟨rfl, rfl, rfl⟩

/-- Claim C2 as amended: a result produced by the first-attempt path has
every `days` element passing the `day`/`summary` membership check, and a
first-attempt element failing the check makes the whole operation return
`GenerationFailure` (all-or-nothing); a result produced by the retry path
is returned after checking only that `days` maps to a list, with no
per-element validation. -/
theorem element_validation_policy
    (destination prefs : String) (days : Int) (d : Json) (retryResp : GenResult) :
    (∀ j, (generate_itinerary destination days prefs (.ok d) retryResp).1 = some j →
      j = d ∧ ∃ kvs entries, d = Json.obj kvs ∧
        lookupKey "days" kvs = some (.arr entries) ∧ ∀ e ∈ entries, elemCheck e = true) ∧
    (∀ kvs entries, d = Json.obj kvs → lookupKey "days" kvs = some (.arr entries) →
      (∃ e ∈ entries, elemCheck e = false) →
      (generate_itinerary destination days prefs (.ok d) retryResp).1 = none) ∧
    (∀ kvs entries, lookupKey "days" kvs = some (.arr entries) →
      (generate_itinerary destination days prefs .parseError (.ok (.obj kvs))).1 =
        some (.obj kvs)) := by
  refine ⟨?_, ?_, ?_⟩
  · intro j h
    replace h : validateItinerary days d = some j := h
    cases d with
    | obj kvs =>
      simp only [validateItinerary] at h
      cases hl : lookupKey "days" kvs with
      | none => rw [hl] at h; exact absurd h (by simp)
      | some v =>
        cases v with
        | arr entries =>
          rw [hl] at h
          replace h : (if entries.all elemCheck then some (Json.obj kvs) else none) = some j := h
          by_cases hall : entries.all elemCheck = true
          · rw [if_pos hall] at h
            exact ⟨(Option.some.inj h).symm, kvs, entries, rfl, hl, List.all_eq_true.mp hall⟩
          · rw [if_neg hall] at h
            exact absurd h (by simp)
        | null => rw [hl] at h; exact absurd h (by simp)
        | bool b => rw [hl] at h; exact absurd h (by simp)
        | num n => rw [hl] at h; exact absurd h (by simp)
        | str s => rw [hl] at h; exact absurd h (by simp)
        | obj kvs2 => rw [hl] at h; exact absurd h (by simp)
    | null => exact absurd h (by simp [validateItinerary])
    | bool b => exact absurd h (by simp [validateItinerary])
    | num n => exact absurd h (by simp [validateItinerary])
    | str s => exact absurd h (by simp [validateItinerary])
    | arr xs => exact absurd h (by simp [validateItinerary])
  · rintro kvs entries rfl hl ⟨e, he, hfail⟩
    show validateItinerary days (.obj kvs) = none
    have hall : entries.all elemCheck = false := by
      cases hb : entries.all elemCheck with
      | false => rfl
      | true =>
        have := List.all_eq_true.mp hb e he
        rw [hfail] at this
        exact absurd this (by decide)
    simp only [validateItinerary]
    rw [hl]
    simp [hall]
  · intro kvs entries hl
    simp [generate_itinerary, hl]

theorem element_validation_policy_witness :
    (generate_itinerary "Oslo" 1 "" (.ok (.obj [("days", .arr [.str "x"])])) .apiError).1 =
      none :=
  (element_validation_policy "Oslo" "" 1 (.obj [("days", .arr [.str "x"])]) .apiError).2.1
    [("days", .arr [.str "x"])] [.str "x"] rfl rfl ⟨.str "x", by simp, by decide⟩

/-- Both fields needed by the persistence loop of `new_trip`
(`day_data['day']`, `day_data['summary']`) are present on a mapping. -/
def elemFields (e : Json) : Bool :=
  (e.getKey "day").isSome && (e.getKey "summary").isSome

/-- The Day row `new_trip` persists for one response entry: the entry's own
`day` value as `day_number` and its `summary` value as `content`, verbatim.
The defaults are never used when `elemFields` holds. -/
def dayRowOf (trip_id : Nat) (e : Json) : DayRow :=
  ⟨trip_id, (e.getKey "day").getD .null, (e.getKey "summary").getD .null⟩

theorem elemFields_check {e : Json} (h : elemFields e = true) : elemCheck e = true := by
  cases e with
  | obj kvs => exact h
  | null => exact absurd h (by simp [elemFields, Json.getKey])
  | bool b => exact absurd h (by simp [elemFields, Json.getKey])
  | num n => exact absurd h (by simp [elemFields, Json.getKey])
  | str s => exact absurd h (by simp [elemFields, Json.getKey])
  | arr xs => exact absurd h (by simp [elemFields, Json.getKey])

theorem insertDays_ok (trip_id : Nat) :
    ∀ (es : List Json) (db : DB) (i : Nat),
      (∀ e ∈ es, elemFields e = true) →
      insertDays trip_id (fun _ => false) db es i =
        (true, { db with days := db.days ++ es.map (dayRowOf trip_id) }) := by
  intro es
  induction es with
  | nil =>
    intro db i _
    simp [insertDays]
  | cons e rest ih =>
    intro db i h
    have he := h e (by simp)
    cases e with
    | obj kvs =>
      obtain ⟨d, hd⟩ : ∃ d, lookupKey "day" kvs = some d := by
        have h' := he
        simp only [elemFields, Json.getKey, Bool.and_eq_true] at h'
        exact Option.isSome_iff_exists.mp h'.1
      obtain ⟨s, hs⟩ : ∃ s, lookupKey "summary" kvs = some s := by
        have h' := he
        simp only [elemFields, Json.getKey, Bool.and_eq_true] at h'
        exact Option.isSome_iff_exists.mp h'.2
      have hrow : dayRowOf trip_id (.obj kvs) = ⟨trip_id, d, s⟩ := by
        simp [dayRowOf, Json.getKey, hd, hs]
      rw [show insertDays trip_id (fun _ => false) db (Json.obj kvs :: rest) i =
            insertDays trip_id (fun _ => false) (create_day db trip_id d s) rest (i + 1) by
          simp [insertDays, hd, hs]]
      rw [ih (create_day db trip_id d s) (i + 1) fun x hx => h x (by simp [hx])]
      simp [create_day, hrow]
    | null => exact absurd he (by simp [elemFields, Json.getKey])
    | bool b => exact absurd he (by simp [elemFields, Json.getKey])
    | num n => exact absurd he (by simp [elemFields, Json.getKey])
    | str s => exact absurd he (by simp [elemFields, Json.getKey])
    | arr xs => exact absurd he (by simp [elemFields, Json.getKey])

/-- Claim C4: when full-itinerary generation succeeds, a day-count mismatch
is non-fatal — `generate_itinerary` returns the received value unmodified
(the hypotheses place no constraint relating `entries.length` to the
requested `num_days`, and the returned object is exactly the parsed one) —
and `new_trip` then persists exactly one Day row per entry of the response,
with `day_number` the entry's own `day` value and `content` the entry's
`summary` value verbatim. -/
theorem success_persists_entries
    (db : DB) (user_id : Nat) (title preferences : String) (num_days : Int)
    (retryResp : GenResult) (kvs : List (String × Json)) (entries : List Json)
    (hdays : lookupKey "days" kvs = some (.arr entries))
    (hfields : ∀ e ∈ entries, elemFields e = true) :
    (generate_itinerary title num_days preferences (.ok (.obj kvs)) retryResp).1 =
      some (.obj kvs) ∧
    new_trip db user_id title num_days preferences (.ok (.obj kvs)) retryResp false
        (fun _ => false) =
      (TripResult.successRedirect db.nextTripId,
       { db with
           trips := db.trips ++ [⟨db.nextTripId, user_id, title, num_days, preferences⟩],
           days := db.days ++ entries.map (dayRowOf db.nextTripId),
           nextTripId := db.nextTripId + 1 }) := by
  have hall : entries.all elemCheck = true :=
    List.all_eq_true.mpr fun e he => elemFields_check (hfields e he)
  have hval : validateItinerary num_days (.obj kvs) = some (.obj kvs) := by
    simp only [validateItinerary]
    rw [hdays]
    simp [hall]
  have hgen : (generate_itinerary title num_days preferences (.ok (.obj kvs)) retryResp).1 =
      some (.obj kvs) := hval
  refine ⟨hgen, ?_⟩
  have hfal : pyFalsy (.obj kvs) = false := pyFalsy_obj_ne_nil (lookupKey_ne_nil hdays)
  have hcon : pyContains "days" (.obj kvs) = true := by
    simp [pyContains, hdays]
  have hins := insertDays_ok db.nextTripId entries
    { db with trips := db.trips ++ [⟨db.nextTripId, user_id, title, num_days, preferences⟩],
              nextTripId := db.nextTripId + 1 } 0 hfields
  unfold new_trip
  rw [hgen]
  simp only [hfal, hcon, Bool.not_true, Bool.or_false, Bool.false_or, if_neg]
  simp [create_trip, hdays, hins]

theorem success_persists_entries_witness :
    new_trip db0 7 "Paris" 3 "vegetarian"
        (.ok (.obj [("days", .arr
          [.obj [("day", .num 1), ("summary", .str "louvre")],
           .obj [("day", .num 2), ("summary", .str "montmartre")],
           .obj [("day", .num 3), ("summary", .str "versailles")]])])) .apiError
        false (fun _ => false) =
      (TripResult.successRedirect db0.nextTripId,
       { db0 with
           trips := db0.trips ++ [⟨db0.nextTripId, 7, "Paris", 3, "vegetarian"⟩],
           days := db0.days ++
             [⟨db0.nextTripId, .num 1, .str "louvre"⟩,
              ⟨db0.nextTripId, .num 2, .str "montmartre"⟩,
              ⟨db0.nextTripId, .num 3, .str "versailles"⟩],
           nextTripId := db0.nextTripId + 1 }) :=
  (success_persists_entries db0 7 "Paris" "vegetarian" 3 .apiError
    [("days", .arr
      [.obj [("day", .num 1), ("summary", .str "louvre")],
       .obj [("day", .num 2), ("summary", .str "montmartre")],
       .obj [("day", .num 3), ("summary", .str "versailles")]])]
    [.obj [("day", .num 1), ("summary", .str "louvre")],
     .obj [("day", .num 2), ("summary", .str "montmartre")],
     .obj [("day", .num 3), ("summary", .str "versailles")]]
    rfl (by
      intro e he
      simp only [List.mem_cons, List.not_mem_nil, or_false] at he
      rcases he with rfl | rfl | rfl <;> rfl)).2

theorem insertDays_extends (trip_id : Nat) (dayFaults : Nat → Bool) :
    ∀ (es : List Json) (db : DB) (i : Nat),
      ∃ extra, (insertDays trip_id dayFaults db es i).2 = { db with days := db.days ++ extra } := by
  intro es
  induction es with
  | nil =>
    intro db i
    exact ⟨[], by simp [insertDays]⟩
  | cons e rest ih =>
    intro db i
    cases e with
    | obj kvs =>
      cases hd : lookupKey "day" kvs with
      | none => exact ⟨[], by simp [insertDays, hd]⟩
      | some d =>
        cases hs : lookupKey "summary" kvs with
        | none => exact ⟨[], by simp [insertDays, hd, hs]⟩
        | some s =>
          cases hf : dayFaults i with
          | true => exact ⟨[], by simp [insertDays, hd, hs, hf]⟩
          | false =>
            obtain ⟨extra, hextra⟩ := ih (create_day db trip_id d s) (i + 1)
            refine ⟨⟨trip_id, d, s⟩ :: extra, ?_⟩
            rw [show (insertDays trip_id dayFaults db (Json.obj kvs :: rest) i).2 =
                  (insertDays trip_id dayFaults (create_day db trip_id d s) rest (i + 1)).2 by
                simp [insertDays, hd, hs, hf]]
            rw [hextra]
            simp [create_day]
    | null => exact ⟨[], by simp [insertDays]⟩
    | bool b => exact ⟨[], by simp [insertDays]⟩
    | num n => exact ⟨[], by simp [insertDays]⟩
    | str s => exact ⟨[], by simp [insertDays]⟩
    | arr xs => exact ⟨[], by simp [insertDays]⟩

/-- State outcome of one `regenerate_day` request: the database is either
returned unchanged, or the request succeeded with some content `c` and the
only write is `update_day` keyed on the requested `(trip_id, day_num)`. -/
theorem regen_route_state (db : DB) (user_id trip_id : Nat) (day_num : Int)
    (backend : GenResult) (updateFault : Bool) :
    ((∀ d c, (regenerate_day_route db user_id trip_id day_num backend updateFault).1 ≠
        RegenResponse.okJson d c) ∧
      (regenerate_day_route db user_id trip_id day_num backend updateFault).2.1 = db) ∨
    (∃ c, (regenerate_day_route db user_id trip_id day_num backend updateFault).1 =
        RegenResponse.okJson day_num c ∧
      (regenerate_day_route db user_id trip_id day_num backend updateFault).2.1 =
        update_day db trip_id day_num c) := by
  unfold regenerate_day_route
  dsimp only
  repeat' split
  all_goals
    first
      | exact Or.inl ⟨fun d c h => RegenResponse.noConfusion h, rfl⟩
      | exact Or.inr ⟨_, rfl, rfl⟩

/-- Good two-day generation result used by the fault-injection scenario. -/
def genTwoDays : Json :=
  .obj [("days", .arr
    [.obj [("day", .num 1), ("summary", .str "a")],
     .obj [("day", .num 2), ("summary", .str "b")]])]

/-- Counterexample to claim C1: generation succeeds with two day entries,
the first `create_day` commits, the second raises.  `new_trip` takes the
failure path (error flash, form re-rendered), yet the committed Trip row
and the first Day row remain — the claim's "no Trip row and no Day rows
remain" is false on this path. -/
theorem new_trip_partial_write_remains :
    (new_trip db0 7 "Paris" 2 "" (.ok genTwoDays) .apiError false (fun i => i == 1)).1 =
      TripResult.failureFlash ∧
    (new_trip db0 7 "Paris" 2 "" (.ok genTwoDays) .apiError false (fun i => i == 1)).2.trips =
      [⟨1, 7, "Paris", 2, ""⟩] ∧
    (new_trip db0 7 "Paris" 2 "" (.ok genTwoDays) .apiError false (fun i => i == 1)).2.days =
      [⟨1, .num 1, .str "a"⟩] :=
  ⟨rfl, rfl, rfl⟩

/-- Claim C1 as amended: every failure path of registration and of day
regeneration returns control with a message and the database unchanged
(trip viewing performs no writes at all, by the type of `trip_view`); the
only write of a successful regeneration is `update_day` on the requested
`(trip_id, day_num)`.  Trip-creation failures that occur before the Trip
row is written also leave the state unchanged; but when trip creation
fails after generation succeeded (an exception while writing Day rows),
the already-committed Trip row and a prefix of Day rows remain — they are
not rolled back, so the original claim's "no Trip row and no Day rows
remain" does not hold on that path. -/
theorem failure_paths_leave_state
    (db : DB) (username password title preferences : String) (hashFn : String → String)
    (user_id trip_id : Nat) (num_days day_num : Int)
    (first retryResp backend : GenResult) (createFault tripFault updateFault : Bool)
    (dayFaults : Nat → Bool) :
    (∀ r db2, register_route db username password hashFn createFault = (r, db2) →
      r = RegisterResult.duplicateFlash ∨ r = RegisterResult.errorFlash → db2 = db) ∧
    (∀ resp db2 calls,
      regenerate_day_route db user_id trip_id day_num backend updateFault =
        (resp, db2, calls) →
      (∀ d c, resp ≠ RegenResponse.okJson d c) → db2 = db) ∧
    (∀ resp db2 calls,
      regenerate_day_route db user_id trip_id day_num backend updateFault =
        (resp, db2, calls) →
      ∀ d c, resp = RegenResponse.okJson d c →
        db2 = update_day db trip_id day_num c) ∧
    (∀ db2,
      new_trip db user_id title num_days preferences first retryResp tripFault dayFaults =
        (TripResult.failureFlash, db2) →
      db2 = db ∨
        (db2.users = db.users ∧
         db2.trips = db.trips ++ [⟨db.nextTripId, user_id, title, num_days, preferences⟩] ∧
         ∃ extra, db2.days = db.days ++ extra)) := by
  refine ⟨?_, ?_, ?_, ?_⟩
  · intro r db2 h hr
    unfold register_route at h
    cases hf : find_user db username with
    | some u =>
      rw [hf] at h
      exact (congrArg Prod.snd h).symm
    | none =>
      rw [hf] at h
      cases createFault with
      | true =>
        rw [if_pos rfl] at h
        exact (congrArg Prod.snd h).symm
      | false =>
        rw [if_neg (by simp)] at h
        have hr' := (congrArg Prod.fst h).symm
        rcases hr with rfl | rfl <;> exact absurd hr' (by simp [create_user])
  · intro resp db2 calls h hnot
    rcases regen_route_state db user_id trip_id day_num backend updateFault with
      ⟨_, hdb⟩ | ⟨c, hok, _⟩
    · rw [h] at hdb
      exact hdb
    · rw [h] at hok
      exact absurd hok (hnot day_num c)
  · intro resp db2 calls h d c hok
    rcases regen_route_state db user_id trip_id day_num backend updateFault with
      ⟨hnot, _⟩ | ⟨c', hok', hdb⟩
    · rw [h] at hnot
      exact absurd hok (hnot d c)
    · rw [h] at hok' hdb
      simp only at hok' hdb
      rw [hok] at hok'
      cases hok'
      exact hdb
  · intro db2 h
    unfold new_trip at h
    dsimp only at h
    split at h
    · exact Or.inl (congrArg Prod.snd h).symm
    · split at h
      · exact Or.inl (congrArg Prod.snd h).symm
      · split at h
        · exact Or.inl (congrArg Prod.snd h).symm
        · split at h
          · split at h
            · split at h
              · exact absurd (congrArg Prod.fst h) (by simp)
              · have hdb2 : db2 =
                    (insertDays (create_trip db user_id title num_days preferences).1 dayFaults
                      (create_trip db user_id title num_days preferences).2 _ 0).2 :=
                  (congrArg Prod.snd h).symm
                obtain ⟨extra, hextra⟩ :=
                  insertDays_extends
                    (create_trip db user_id title num_days preferences).1 dayFaults
                    _ ((create_trip db user_id title num_days preferences).2) 0
                subst hdb2
                rw [hextra]
                exact Or.inr ⟨by simp [create_trip], by simp [create_trip],
                  extra, by simp [create_trip]⟩
            · have hdb2 : db2 = (create_trip db user_id title num_days preferences).2 :=
                (congrArg Prod.snd h).symm
              subst hdb2
              exact Or.inr ⟨by simp [create_trip], by simp [create_trip],
                [], by simp [create_trip]⟩
          · have hdb2 : db2 = (create_trip db user_id title num_days preferences).2 :=
              (congrArg Prod.snd h).symm
            subst hdb2
            exact Or.inr ⟨by simp [create_trip], by simp [create_trip],
              [], by simp [create_trip]⟩

theorem failure_paths_leave_state_witness :
    (register_route db0 "alice" "pw" (fun s => s) true).2 = db0 ∧
    (regenerate_day_route db0 3 9 1 .apiError false).2.1 = db0 :=
  ⟨(failure_paths_leave_state db0 "alice" "pw" "t" "" (fun s => s) 3 9 1 1
      .apiError .apiError .apiError true false false (fun _ => false)).1
      RegisterResult.errorFlash db0 rfl (Or.inr rfl),
   (failure_paths_leave_state db0 "alice" "pw" "t" "" (fun s => s) 3 9 1 1
      .apiError .apiError .apiError true false false (fun _ => false)).2.1
      RegenResponse.notFound404 db0 [] rfl (fun d c => RegenResponse.noConfusion)⟩

end Voyager
